import Mathlib

/-
  Verification development for the bytemachine Orca actuator driver.

  The definitions below are shallow embeddings of the Python sources:
    src/orca/bit_utils.py
    src/orca/motor_read_stream.py, motor_write_stream.py,
    motor_command_stream.py, manage_high_speed_stream.py
    src/orca/actuator.py
    src/bytemachine/lib_bytemachine.py
    src/main.py
  Python integers are modelled as Int (or Nat where a value is a byte or
  a register count), numpy int32 values as Int together with an explicit
  wrap-around function, and fallible calls as Option.  The serial Modbus
  transport is modelled as an oracle (structure Device) answering reads
  and acknowledging writes; each driver operation additionally returns
  the list of register-level interactions it issued, in order.
-/

/-! ### Register and mode constants, from src/orca/constants.py -/

def MODE_SLEEP : Int := 1

def MODE_KINEMATIC : Int := 5

def MODE_AUTO_ZERO : Int := 55

def MODE_OF_OPERATION : Int := 317

def CTRL_REG_3 : Int := 3

def KIN_SW_TRIGGER : Int := 9

def KIN_MOTION_0 : Int := 780

def KINEMATIC_STATUS : Int := 319

def ZERO_MODE : Int := 171

def AUTO_ZERO_MODE_ENABLED : Int := 2

/-! ### Bit utilities, from src/orca/bit_utils.py

The Python functions operate on numpy int32 values:
  get_lsb returns np.bitwise_and(value, 0xFFFF), which for a two's
    complement int32 is the non-negative residue of the value mod 2^16;
  get_msb returns np.right_shift(value, 16), an arithmetic right shift,
    which on int32 equals division by 2^16 rounded toward negative
    infinity; for the positive divisor 2^16 that is Int.ediv;
  combine_low_high returns high * 2^16 + low (the numpy expression
    (high * (1 <<< 16)) + low evaluated in 64-bit arithmetic, which never
    overflows for 16-bit inputs). -/

def get_lsb (value : Int) : Int := value % 65536

def get_msb (value : Int) : Int := value / 65536

def combine_low_high (low high : Int) : Int := high * 65536 + low

/-- np.int32 construction: wrap an arbitrary integer into the two's
complement int32 range. -/
def int32 (n : Int) : Int := (n + 2147483648) % 4294967296 - 2147483648

/-- The register-pair split exactly as the specification words it:
low = value AND 0xFFFF and high = (value >>> 16) AND 0xFFFF, both masked
into the u16 range.  Stated from the spec for comparison with the source
functions get_lsb and get_msb. -/
def splitToRegisterPairSpec (value : Int) : Int × Int :=
  (value % 65536, value / 65536 % 65536)

/-! ### Big-endian struct codec, from the struct.pack and struct.unpack
calls in the four custom frame modules.  A format is a list of unsigned
field widths (B, H, I in the Python format strings, always big-endian). -/

inductive StructField where
  | u8
  | u16
  | u32
deriving DecidableEq, Repr

def fieldSize : StructField → Nat
  | .u8 => 1
  | .u16 => 2
  | .u32 => 4

/-- struct.calcsize for a big-endian format: the sum of the field sizes
(no padding is inserted for the formats starting with a greater-than). -/
def calcsize (fmt : List StructField) : Nat := (fmt.map fieldSize).sum

/-- Big-endian value of a list of bytes. -/
def beValue (bytes : List Nat) : Nat := bytes.foldl (fun acc b => 256 * acc + b) 0

/-- Field-by-field reading of an exactly sized buffer. -/
def parseStruct : List StructField → List Nat → List Nat
  | [], _ => []
  | f :: fs, data => beValue (data.take (fieldSize f)) :: parseStruct fs (data.drop (fieldSize f))

/-- struct.unpack: requires the buffer length to equal calcsize of the
format, otherwise it raises (modelled as none). -/
def structUnpack (fmt : List StructField) (data : List Nat) : Option (List Nat) :=
  if data.length = calcsize fmt then some (parseStruct fmt data) else none

/-- The decode methods of the four response classes all unpack the slice
data[0 : struct.calcsize(format)]; when the received payload is shorter
than the fixed size the slice stays short and struct.unpack raises. -/
def responseDecode (fmt : List StructField) (data : List Nat) : Option (List Nat) :=
  structUnpack fmt (data.take (calcsize fmt))

/-- Big-endian bytes of an in-range field value. -/
def fieldBytes (f : StructField) (v : Nat) : List Nat :=
  match f with
  | .u8 => [v % 256]
  | .u16 => [v / 256 % 256, v % 256]
  | .u32 => [v / 16777216 % 256, v / 65536 % 256, v / 256 % 256, v % 256]

/-- struct.pack: every value must fit its field width, otherwise it
raises (modelled as none). -/
def structPack : List StructField → List Nat → Option (List Nat)
  | [], [] => some []
  | [], _ :: _ => none
  | _ :: _, [] => none
  | f :: fs, v :: vs =>
      if v < 2 ^ (8 * fieldSize f) then
        match structPack fs vs with
        | some rest => some (fieldBytes f v ++ rest)
        | none => none
      else none

/-! ### Response formats of the four custom frames -/

/-- Format string of MotorReadStreamResponse: greater-than I B I I H B H H. -/
def motorReadStreamResponseFormat : List StructField :=
  [.u32, .u8, .u32, .u32, .u16, .u8, .u16, .u16]

/-- Format string of MotorCommandStreamResponse: greater-than I I H B H H. -/
def motorCommandStreamResponseFormat : List StructField :=
  [.u32, .u32, .u16, .u8, .u16, .u16]

/-- Format string of MotorWriteStreamResponse: greater-than B I I H B H H. -/
def motorWriteStreamResponseFormat : List StructField :=
  [.u8, .u32, .u32, .u16, .u8, .u16, .u16]

/-- Format string of ManageHighSpeedStreamResponse: greater-than B I H. -/
def manageHighSpeedStreamResponseFormat : List StructField :=
  [.u8, .u32, .u16]

/-- The four custom frame response formats. -/
def customFrameResponseFormats : List (List StructField) :=
  [manageHighSpeedStreamResponseFormat, motorCommandStreamResponseFormat,
   motorReadStreamResponseFormat, motorWriteStreamResponseFormat]

/-! ### Claim C2 and C4 theorems -/

/-- Claim C2: for every 32-bit signed integer v, combining the register
pair produced by splitting v yields v back exactly, including for
negative v. -/
theorem claimC2_split_combine_roundtrip (v : Int)
    (hlo : -2147483648 ≤ v) (hhi : v < 2147483648) :
    combine_low_high (get_lsb v) (get_msb v) = v := by
  unfold combine_low_high get_lsb get_msb
  omega

/-- Witness for claim C2 at the negative input -40000. -/
theorem claimC2_split_combine_roundtrip_witness :
    combine_low_high (get_lsb (-40000)) (get_msb (-40000)) = -40000 :=
  claimC2_split_combine_roundtrip (-40000) (by decide) (by decide)

/-- Counterexample to claim C4: at value -1 the source function get_msb
returns the arithmetic shift -1, which is negative, is not in the u16
range 0..65535, and differs from the masked value (value >>> 16) AND
0xFFFF = 65535 stated by the claim. -/
theorem claimC4_counterexample :
    get_msb (-1) = -1 ∧ (splitToRegisterPairSpec (-1)).2 = 65535 ∧
      get_msb (-1) ≠ (splitToRegisterPairSpec (-1)).2 ∧ ¬ 0 ≤ get_msb (-1) := by
  decide

/-- Claim C4 as amended: for every i32 value, the low half returned by
get_lsb is value AND 0xFFFF and lies in 0..65535 as claimed, but the
high half returned by get_msb is the unmasked arithmetic shift, lying in
-32768..32767; it agrees with the masked value (value >>> 16) AND 0xFFFF
claimed by the specification exactly when the input is non-negative. -/
theorem claimC4_split_amended (v : Int)
    (hlo : -2147483648 ≤ v) (hhi : v < 2147483648) :
    get_lsb v = (splitToRegisterPairSpec v).1 ∧
      0 ≤ get_lsb v ∧ get_lsb v < 65536 ∧
      -32768 ≤ get_msb v ∧ get_msb v < 32768 ∧
      (get_msb v = (splitToRegisterPairSpec v).2 ↔ 0 ≤ v) := by
  unfold get_lsb get_msb splitToRegisterPairSpec
  dsimp only
  omega

/-- Witness for the amended claim C4 at the input 70000. -/
theorem claimC4_split_amended_witness :
    get_lsb 70000 = (splitToRegisterPairSpec 70000).1 ∧
      0 ≤ get_lsb 70000 ∧ get_lsb 70000 < 65536 ∧
      -32768 ≤ get_msb 70000 ∧ get_msb 70000 < 32768 ∧
      (get_msb 70000 = (splitToRegisterPairSpec 70000).2 ↔ (0 : Int) ≤ 70000) :=
  claimC4_split_amended 70000 (by decide) (by decide)

/-! ### Decoded results, from the response classes -/

/-- Result dataclass of MotorReadStreamResponse. -/
structure MotorReadStreamResult where
  register_value : Int
  mode : Int
  position_um : Int
  force_mN : Int
  power_W : Int
  temperature_C : Int
  voltage_mV : Int
  errors : Int
deriving DecidableEq, Repr

/-- MotorReadStreamResponse.decode followed by _maybe_init_from_values:
unpack the payload and, when that succeeded, build the result record
from the eight decoded values. -/
def motorReadStreamDecodeResult (data : List Nat) : Option MotorReadStreamResult :=
  match responseDecode motorReadStreamResponseFormat data with
  | some [a, b, c, d, e, f, g, h] =>
      some { register_value := (a : Int), mode := (b : Int), position_um := (c : Int),
             force_mN := (d : Int), power_W := (e : Int), temperature_C := (f : Int),
             voltage_mV := (g : Int), errors := (h : Int) }
  | _ => none

/-- Claim C3: for every custom frame type, decoding a response payload
shorter than the fixed expected size fails and populates nothing; in
particular a MotorReadStream response payload carrying only 7 of its 8
fields (18 of the required 20 bytes) decodes to no result at all. -/
theorem claimC3_short_payload_fails (fmt : List StructField)
    (hfmt : fmt ∈ customFrameResponseFormats)
    (data : List Nat) (hshort : data.length < calcsize fmt) :
    responseDecode fmt data = none ∧
      motorReadStreamDecodeResult (List.replicate 18 0) = none := by
  constructor
  · simp only [responseDecode, structUnpack, List.length_take]
    split
    case isTrue h => exact absurd h (by omega)
    case isFalse h => rfl
  · decide

/-- Witness for claim C3: an 18-byte payload is shorter than the 20-byte
MotorReadStream response format. -/
theorem claimC3_short_payload_fails_witness :
    responseDecode motorReadStreamResponseFormat (List.replicate 18 0) = none ∧
      motorReadStreamDecodeResult (List.replicate 18 0) = none :=
  claimC3_short_payload_fails motorReadStreamResponseFormat (by decide)
    (List.replicate 18 0) (by decide)

/-! ### MotorWriteStreamRequest codec, from src/orca/motor_write_stream.py -/

/-- Format greater-than H B H H used by encode and decode when the
register width is 1. -/
def motorWriteStreamRequestNarrowFormat : List StructField := [.u16, .u8, .u16, .u16]

/-- Format greater-than H B I used otherwise. -/
def motorWriteStreamRequestWideFormat : List StructField := [.u16, .u8, .u32]

/-- MotorWriteStreamRequest.encode: with width 1 the four-byte data
field is packed as the constant 0 followed by the 16-bit value; with
any other width the data is packed as one u32. -/
def motorWriteStreamRequestEncode (register_address register_width data : Nat) :
    Option (List Nat) :=
  if register_width = 1 then
    structPack motorWriteStreamRequestNarrowFormat [register_address, register_width, 0, data]
  else
    structPack motorWriteStreamRequestWideFormat [register_address, register_width, data]

/-- MotorWriteStreamRequest.decode: branches on the current register
width; in the width-1 branch the third unpacked field is dropped and the
fourth becomes the data attribute. -/
def motorWriteStreamRequestDecode (register_width : Nat) (data : List Nat) :
    Option (Nat × Nat × Nat) :=
  if register_width = 1 then
    match structUnpack motorWriteStreamRequestNarrowFormat data with
    | some [a, w, _, d] => some (a, w, d)
    | _ => none
  else
    match structUnpack motorWriteStreamRequestWideFormat data with
    | some [a, w, d] => some (a, w, d)
    | _ => none

/-- Counterexample to claim C8: encoding a width-1 request with value
0xABCD = 43981 places the value in the LOW word of the data field (the
last two bytes 171, 205) with the high word zero, and decoding keeps
exactly that low word: moving the value bytes into the high word instead
decodes to 0.  So the low word is neither ignored nor discarded. -/
theorem claimC8_counterexample :
    motorWriteStreamRequestEncode 9 1 43981 = some [0, 9, 1, 0, 0, 171, 205] ∧
      motorWriteStreamRequestDecode 1 [0, 9, 1, 0, 0, 171, 205] = some (9, 1, 43981) ∧
      motorWriteStreamRequestDecode 1 [0, 9, 1, 171, 205, 0, 0] = some (9, 1, 0) := by
  decide

/-- Claim C8 as amended: for width 1 the data field is a 4-byte u32
whose HIGH word is ignored: encode writes the zero high word and carries
the 16-bit value in the low word, and decode discards whatever stands in
the high word, returning the low word as the data. -/
theorem claimC8_width1_amended (register_address data : Nat)
    (haddr : register_address < 65536) (hdata : data < 65536) :
    motorWriteStreamRequestEncode register_address 1 data =
      some [register_address / 256 % 256, register_address % 256, 1, 0, 0,
            data / 256 % 256, data % 256] ∧
      ∀ hw : Nat,
        motorWriteStreamRequestDecode 1
          [register_address / 256 % 256, register_address % 256, 1,
           hw / 256 % 256, hw % 256, data / 256 % 256, data % 256] =
          some (register_address, 1, data) := by
  constructor
  · simp [motorWriteStreamRequestEncode, motorWriteStreamRequestNarrowFormat,
      structPack, fieldSize, fieldBytes, haddr, hdata]
  · intro hw
    simp [motorWriteStreamRequestDecode, motorWriteStreamRequestNarrowFormat,
      structUnpack, calcsize, parseStruct, beValue, fieldSize]
    omega

/-- Witness for the amended claim C8 at address 9 and value 43981. -/
theorem claimC8_width1_amended_witness :
    motorWriteStreamRequestEncode 9 1 43981 =
      some [9 / 256 % 256, 9 % 256, 1, 0, 0, 43981 / 256 % 256, 43981 % 256] ∧
      ∀ hw : Nat,
        motorWriteStreamRequestDecode 1
          [9 / 256 % 256, 9 % 256, 1, hw / 256 % 256, hw % 256,
           43981 / 256 % 256, 43981 % 256] = some (9, 1, 43981) :=
  claimC8_width1_amended 9 43981 (by decide) (by decide)

/-! ### Kinematic configuration word packing, from
OrcaActuator.set_kinematic_motion in src/orca/actuator.py -/

/-- The packed next_type_auto register word, source line 517:
(motion_type <<< 1) OR (next_id <<< 3) OR auto_start_next. -/
def packMotionTriple (motion_type next_id auto_start_next : Int) : Int :=
  Int.lor (Int.lor (motion_type <<< (1 : Int)) (next_id <<< (3 : Int))) auto_start_next

/-- Unpacking of the packed word following the field layout the packing
uses (1-bit auto-start flag at bit 0, 2-bit motion type at bit 1, 5-bit
next slot id at bit 3); the source never unpacks the word, so this
definition follows the documented field widths. -/
def unpackMotionTriple (w : Int) : Int × Int × Int :=
  (Int.land (w >>> (1 : Int)) 3, Int.land (w >>> (3 : Int)) 31, Int.land w 1)

/-- Claim C9: for every motion type in 0..3, next slot id in 0..31 and
auto-start flag in 0..1, unpacking the packed kinematic configuration
word recovers exactly the original fields, so the packing is injective
on those ranges. -/
theorem claimC9_pack_unpack_roundtrip (mt nid asn : Int)
    (h1 : 0 ≤ mt) (h2 : mt < 4) (h3 : 0 ≤ nid) (h4 : nid < 32)
    (h5 : 0 ≤ asn) (h6 : asn < 2) :
    unpackMotionTriple (packMotionTriple mt nid asn) = (mt, nid, asn) := by
  interval_cases mt <;> interval_cases nid <;> interval_cases asn <;> decide

/-- Witness for claim C9 at motion type 1, next slot 3, auto-start 1. -/
theorem claimC9_pack_unpack_roundtrip_witness :
    unpackMotionTriple (packMotionTriple 1 3 1) = (1, 3, 1) :=
  claimC9_pack_unpack_roundtrip 1 3 1 (by decide) (by decide) (by decide)
    (by decide) (by decide) (by decide)

/-! ### Transport oracle and interaction traces

The pymodbus client plus the physical actuator are modelled as an
oracle.  Read-like calls take a step index so that the answer may change
between iterations of a polling loop; write acknowledgments depend only
on the address and the payload.  Every driver operation returns its
result together with the ordered list of register-level interactions it
issued. -/

inductive DeviceEvent where
  | readRegister (address count : Int)
  | writeRegister (address value : Int)
  | writeRegisters (address : Int) (values : List Int)
  | motorReadStream (address width : Int)
deriving DecidableEq, Repr

structure Device where
  readRegisterAt : Nat → Int → Int → Option (List Int)
  writeRegisterAck : Int → Int → Bool
  writeRegistersAck : Int → List Int → Bool
  motorReadStreamAt : Nat → Int → Int → Option MotorReadStreamResult

/-! ### OrcaActuator operations, from src/orca/actuator.py -/

/-- OrcaActuator.read_register: a list of register values, or None if
the read failed. -/
def read_register (dev : Device) (t : Nat) (address count : Int) :
    Option (List Int) × List DeviceEvent :=
  (dev.readRegisterAt t address count, [.readRegister address count])

/-- OrcaActuator.write_register: True if the write was acknowledged. -/
def write_register (dev : Device) (address value : Int) : Bool × List DeviceEvent :=
  (dev.writeRegisterAck address value, [.writeRegister address value])

/-- OrcaActuator.write_registers: True if the write was acknowledged. -/
def write_registers (dev : Device) (address : Int) (values : List Int) :
    Bool × List DeviceEvent :=
  (dev.writeRegistersAck address values, [.writeRegisters address values])

/-- OrcaActuator.motor_read_stream viewed from its callers: the decoded
result record, or None on a failed exchange. -/
def motor_read_stream_call (dev : Device) (t : Nat) (address width : Int) :
    Option MotorReadStreamResult × List DeviceEvent :=
  (dev.motorReadStreamAt t address width, [.motorReadStream address width])

/-- OrcaActuator.get_mode: reads MODE_OF_OPERATION and returns the first
returned register if the read produced a non-empty list (Python
truthiness of the list), None otherwise. -/
def get_mode (dev : Device) (t : Nat) : Option Int × List DeviceEvent :=
  match read_register dev t MODE_OF_OPERATION 1 with
  | (some (m :: _), evs) => (some m, evs)
  | (_, evs) => (none, evs)

/-- OrcaActuator.set_mode: writes the mode to control register 3. -/
def set_mode (dev : Device) (mode : Int) : Bool × List DeviceEvent :=
  write_register dev CTRL_REG_3 mode

/-- OrcaActuator.trigger_kinematic_motion: writes the motion id to the
kinematic software trigger register. -/
def trigger_kinematic_motion (dev : Device) (motion_id : Int) : Bool × List DeviceEvent :=
  write_register dev KIN_SW_TRIGGER motion_id

/-- The six register values written by set_kinematic_motion: the int32
position target split into low and high words, the int32 settling time
split into low and high words, the auto start delay, and the packed
next_type_auto word. -/
def kinematicSlotValues (position_target_um settling_time_ms auto_start_delay_ms
    next_id motion_type auto_start_next : Int) : List Int :=
  [get_lsb (int32 position_target_um), get_msb (int32 position_target_um),
   get_lsb (int32 settling_time_ms), get_msb (int32 settling_time_ms),
   auto_start_delay_ms,
   packMotionTriple motion_type next_id auto_start_next]

/-- OrcaActuator.set_kinematic_motion: writes the six slot registers
starting at KIN_MOTION_0 + 6 * motion_id. -/
def set_kinematic_motion (dev : Device) (motion_id position_target_um settling_time_ms
    auto_start_delay_ms next_id motion_type auto_start_next : Int) :
    Bool × List DeviceEvent :=
  write_registers dev (KIN_MOTION_0 + 6 * motion_id)
    (kinematicSlotValues position_target_um settling_time_ms auto_start_delay_ms
      next_id motion_type auto_start_next)

/-- OrcaActuator.command_auto_zero: writes the three auto-zero
configuration registers, then writes the mode register to AutoZero, and
returns the conjunction of the two acknowledgments.  Note that the
source issues the mode-register write unconditionally, even when the
configuration write already failed. -/
def command_auto_zero (dev : Device) (max_force_n exit_to_mode : Int) :
    Bool × List DeviceEvent :=
  let w1 := write_registers dev ZERO_MODE [AUTO_ZERO_MODE_ENABLED, max_force_n, exit_to_mode]
  let w2 := write_register dev CTRL_REG_3 MODE_AUTO_ZERO
  (w2.1 && w1.1, w1.2 ++ w2.2)

/-! ### Library operations, from src/bytemachine/lib_bytemachine.py -/

/-- The polling loop of auto_zero_wait.  The Python loop is unbounded;
the fuel argument bounds the number of modelled iterations and a first
component of none stands for a run that has not finished within the
given fuel.  The step index t advances by one per iteration. -/
def auto_zero_poll (dev : Device) : Nat → Nat → Option Bool × List DeviceEvent
  | 0, _ => (none, [])
  | fuel + 1, t =>
      match get_mode dev t with
      | (none, evs) => (some false, evs)
      | (some mode, evs) =>
          if mode ≠ MODE_AUTO_ZERO then (some true, evs)
          else
            let rest := auto_zero_poll dev fuel (t + 1)
            (rest.1, evs ++ rest.2)

/-- auto_zero_wait: initiate auto-zero through command_auto_zero; on a
False acknowledgment return False at once; otherwise poll the mode
register until it reports something other than AutoZero. -/
def auto_zero_wait (dev : Device) (fuel : Nat) (max_force_n exit_to_mode : Int) :
    Option Bool × List DeviceEvent :=
  let init := command_auto_zero dev max_force_n exit_to_mode
  if init.1 = false then (some false, init.2)
  else
    let rest := auto_zero_poll dev fuel 0
    (rest.1, init.2 ++ rest.2)

/-- Lines 57 to 65 of configure_two_point_kinematic_motion: the outbound
slot id, the inbound slot id and the slot id to trigger, as a function
of the active motion id.  The source initializes the pair to 0 and 1,
replaces it by 2 and 3 when the active id is 0 or 1, and triggers the
inbound slot exactly when the active id is 1 or 3. -/
def twoPointMotionIds (active_motion_id : Int) : Int × Int × Int :=
  let motion_out_id : Int := 0
  let motion_in_id : Int := 1
  let p := if active_motion_id = 0 ∨ active_motion_id = 1
    then ((2 : Int), (3 : Int)) else (motion_out_id, motion_in_id)
  let motion_to_trigger_id := if active_motion_id = 1 ∨ active_motion_id = 3 then p.2 else p.1
  (p.1, p.2, motion_to_trigger_id)

/-- Line 57 of configure_two_point_kinematic_motion: the active motion
id is the kinematic status register value masked with 0x7FFF. -/
def active_motion_id (kin_status : MotorReadStreamResult) : Int :=
  Int.land kin_status.register_value 32767

/-- The while-True loop of configure_two_point_kinematic_motion: read
the kinematic status through the motor read stream; when the read fails
(a falsy result) retry forever, otherwise write the two slots of the
inactive pair, trigger the chosen slot and leave the loop.  The fuel
argument bounds the modelled iterations; a first component of none
stands for a run still inside the loop when the fuel runs out.  The
Python function itself returns None once the loop exits, so a finished
run carries only the unit value. -/
def configureLoop (dev : Device)
    (settling_time_ms position_target_start_um position_target_end_um : Int) :
    Nat → Nat → Option Unit × List DeviceEvent
  | 0, _ => (none, [])
  | fuel + 1, t =>
      match motor_read_stream_call dev t KINEMATIC_STATUS 1 with
      | (some kin_status, evs) =>
          let ids := twoPointMotionIds (active_motion_id kin_status)
          let w_out := set_kinematic_motion dev ids.1 position_target_end_um
            settling_time_ms 0 ids.2.1 1 1
          let w_in := set_kinematic_motion dev ids.2.1 position_target_start_um
            settling_time_ms 0 ids.1 1 1
          let trig := trigger_kinematic_motion dev ids.2.2
          (some (), evs ++ w_out.2 ++ w_in.2 ++ trig.2)
      | (none, evs) =>
          let rest := configureLoop dev settling_time_ms position_target_start_um
            position_target_end_um fuel (t + 1)
          (rest.1, evs ++ rest.2)

/-- Settling time in milliseconds: max(int(stroke_length / stroke_rate * 1000), 0).
Python floats are modelled as rationals; int() truncates toward zero,
which below a max with 0 agrees with the floor used here. -/
def strokeSettlingTimeMs (stroke_rate_mm_s stroke_length_mm : ℚ) : Int :=
  max (Rat.floor (stroke_length_mm / stroke_rate_mm_s * 1000)) 0

/-- Start position target in micrometers: max(int(offset * 1000), 0). -/
def strokePositionStartUm (stroke_start_offset_mm : ℚ) : Int :=
  max (Rat.floor (stroke_start_offset_mm * 1000)) 0

/-- End position target in micrometers:
max(int(length * 1000 + offset * 1000), 0). -/
def strokePositionEndUm (stroke_length_mm stroke_start_offset_mm : ℚ) : Int :=
  max (Rat.floor (stroke_length_mm * 1000 + stroke_start_offset_mm * 1000)) 0

/-- configure_two_point_kinematic_motion: compute the settling time and
the two position targets, then run the status-read loop. -/
def configure_two_point_kinematic_motion (dev : Device) (fuel : Nat)
    (stroke_rate_mm_s stroke_length_mm stroke_start_offset_mm : ℚ) :
    Option Unit × List DeviceEvent :=
  configureLoop dev
    (strokeSettlingTimeMs stroke_rate_mm_s stroke_length_mm)
    (strokePositionStartUm stroke_start_offset_mm)
    (strokePositionEndUm stroke_length_mm stroke_start_offset_mm)
    fuel 0

/-! ### State-change handling, from src/main.py -/

def MIN_STROKE_LENGTH_MM : Int := 20

def MIN_STROKE_RATE_MM_S : Int := 20

/-- handle_state_change: read the mode and the kinematic status (bail
out with (0, 0) on a falsy status read), force Sleep when a stroke
parameter is zero and the mode is not Sleep (also suppressing the
trailing trigger write), force Kinematic when a stroke parameter is
positive and the mode is not Kinematic, clamp the stroke parameters to
their minima, reconfigure the two-point motion, and finally trigger
motion 0 when no motion was in progress and Sleep was not forced.  The
mode checks run only when the mode read was truthy (a value other than
None and 0). -/
def handle_state_change (dev : Device) (fuel : Nat)
    (stroke_rate_mm_s stroke_length_mm : Int) :
    Option (Int × Int) × List DeviceEvent :=
  let gm := get_mode dev 0
  let ks := read_register dev 1 KINEMATIC_STATUS 1
  match ks.1 with
  | none => (some (0, 0), gm.2 ++ ks.2)
  | some [] => (some (0, 0), gm.2 ++ ks.2)
  | some (k :: _) =>
      let should_trigger_motion : Bool := (Int.land k 32768) >>> (15 : Int) == 0
      let truthy : Bool := match gm.1 with
        | some m => m != 0
        | none => false
      let sleepCond : Bool := truthy &&
        ((stroke_length_mm == 0 || stroke_rate_mm_s == 0) && ((gm.1).getD 0 != MODE_SLEEP))
      let kinCond : Bool := truthy &&
        ((decide (stroke_length_mm > 0) || decide (stroke_rate_mm_s > 0)) &&
          ((gm.1).getD 0 != MODE_KINEMATIC))
      let sleepEvents := if sleepCond then (set_mode dev MODE_SLEEP).2 else []
      let should_trigger_after : Bool := if sleepCond then false else should_trigger_motion
      let kinEvents := if kinCond then (set_mode dev MODE_KINEMATIC).2 else []
      let result_stroke_rate := max stroke_rate_mm_s MIN_STROKE_RATE_MM_S
      let result_stroke_length := max stroke_length_mm MIN_STROKE_LENGTH_MM
      let cfg := configure_two_point_kinematic_motion dev fuel
        (result_stroke_rate : ℚ) (result_stroke_length : ℚ) 35
      match cfg.1 with
      | none => (none, gm.2 ++ ks.2 ++ sleepEvents ++ kinEvents ++ cfg.2)
      | some _ =>
          let trigEvents := if should_trigger_after
            then (trigger_kinematic_motion dev 0).2 else []
          (some (result_stroke_rate, result_stroke_length),
           gm.2 ++ ks.2 ++ sleepEvents ++ kinEvents ++ cfg.2 ++ trigEvents)

/-! ### Return-value plumbing of the four stream methods of
OrcaActuator, for claim C10.  Each method submits a request, returns
None when the response is flagged as an error, and otherwise reaches its
final line.  In motor_read_stream and manage_high_speed_stream that line
is a return of response.result; in motor_command_stream (line 796) it is
the bare expression response.result whose value is discarded, so that
method falls through and returns None.  In motor_write_stream (line 849)
the final line is also a bare response.result, but the class
MotorWriteStreamResponse never defines a result attribute: its __init__
and decode set mode, position, force, power, temperature, voltage and
errors only, no pymodbus base class supplies result, and the
MotorWriteStreamResult dataclass named in the method annotation exists
in no module.  On the success path that attribute access therefore
raises AttributeError instead of producing a value.  The three response
classes that do define result are modelled by their error flag and their
result attribute; the write response by its error flag and its actual
attributes, and the raised exception by the error side of an Except. -/

structure MotorCommandStreamResult where
  position_um : Int
  force_mN : Int
  power_W : Int
  temperature_C : Int
  voltage_mV : Int
  errors : Int
deriving DecidableEq, Repr

structure ManageHighSpeedStreamResult where
  state_command : Int
  realized_baud_rate : Int
  realized_delay_us : Int
deriving DecidableEq, Repr

structure PyResponse (α : Type) where
  isError : Bool
  result : Option α

/-- Python exception raised by an access to a missing attribute. -/
inductive PyError where
  | attributeError
deriving DecidableEq, Repr

/-- The attributes a MotorWriteStreamResponse object actually carries:
the error flag and the seven fields set in __init__ (None until a decode
populated them).  The constant format string and the values list do not
affect the return path and are omitted.  There is no result field. -/
structure MotorWriteStreamResponse where
  isError : Bool
  mode : Option Int
  position : Option Int
  force : Option Int
  power : Option Int
  temperature : Option Int
  voltage : Option Int
  errors : Option Int
deriving DecidableEq, Repr

/-- OrcaActuator.motor_command_stream: the final line evaluates
response.result (an attribute MotorCommandStreamResponse does define)
without returning it, so the method returns None on both branches. -/
def motor_command_stream (response : PyResponse MotorCommandStreamResult) :
    Option MotorCommandStreamResult :=
  if response.isError then none
  else none

/-- OrcaActuator.motor_write_stream: returns None when the response is
flagged as an error; otherwise its final line reads response.result, an
attribute the response object does not have, so the success path raises
AttributeError.  No decoded result can ever be returned; the ok payload
is the Python None alone. -/
def motor_write_stream (response : MotorWriteStreamResponse) :
    Except PyError (Option Unit) :=
  if response.isError then Except.ok none
  else Except.error PyError.attributeError

/-- OrcaActuator.motor_read_stream: returns response.result on the
success path. -/
def motor_read_stream (response : PyResponse MotorReadStreamResult) :
    Option MotorReadStreamResult :=
  if response.isError then none
  else response.result

/-- OrcaActuator.manage_high_speed_stream: returns response.result on
the success path. -/
def manage_high_speed_stream (response : PyResponse ManageHighSpeedStreamResult) :
    Option ManageHighSpeedStreamResult :=
  if response.isError then none
  else response.result

/-! ### Shared trace lemma for the configuration loop -/

/-- One-shot run of the configuration loop: when the first kinematic
status read succeeds, the loop issues exactly the read, the two slot
writes of the inactive pair, and the trigger write, and returns. -/
theorem configureLoop_first_read_trace (dev : Device)
    (settling_time_ms position_target_start_um position_target_end_um : Int)
    (fuel : Nat) (res : MotorReadStreamResult)
    (hread : dev.motorReadStreamAt 0 KINEMATIC_STATUS 1 = some res) :
    configureLoop dev settling_time_ms position_target_start_um position_target_end_um
        (fuel + 1) 0 =
      (some (),
       [DeviceEvent.motorReadStream KINEMATIC_STATUS 1,
        DeviceEvent.writeRegisters
          (KIN_MOTION_0 + 6 * (twoPointMotionIds (active_motion_id res)).1)
          (kinematicSlotValues position_target_end_um settling_time_ms 0
            (twoPointMotionIds (active_motion_id res)).2.1 1 1),
        DeviceEvent.writeRegisters
          (KIN_MOTION_0 + 6 * (twoPointMotionIds (active_motion_id res)).2.1)
          (kinematicSlotValues position_target_start_um settling_time_ms 0
            (twoPointMotionIds (active_motion_id res)).1 1 1),
        DeviceEvent.writeRegister KIN_SW_TRIGGER
          (twoPointMotionIds (active_motion_id res)).2.2]) := by
  simp [configureLoop, motor_read_stream_call, hread, set_kinematic_motion,
    write_registers, trigger_kinematic_motion, write_register]

/-! ### Claim C1 theorems -/

/-- A transport on which every multi-register write fails while
single-register writes and reads succeed. -/
def autoZeroFailDevice : Device where
  readRegisterAt := fun _ _ _ => some [(MODE_SLEEP)]
  writeRegisterAck := fun _ _ => true
  writeRegistersAck := fun _ _ => false
  motorReadStreamAt := fun _ _ _ => none

/-- Counterexample to claim C1: on a transport whose auto-zero
configuration write fails, the auto-zero sequence still issues the
mode-register write (it appears in the trace), contradicting the claim
that this write is never attempted after a failed configuration write. -/
theorem claimC1_counterexample :
    autoZeroFailDevice.writeRegistersAck ZERO_MODE [AUTO_ZERO_MODE_ENABLED, 50, 1] = false ∧
      (auto_zero_wait autoZeroFailDevice 5 50 1).1 = some false ∧
      DeviceEvent.writeRegister CTRL_REG_3 MODE_AUTO_ZERO ∈
        (auto_zero_wait autoZeroFailDevice 5 50 1).2 := by
  decide

/-- Claim C1 as amended: when the auto-zero configuration write fails,
the sequence returns failure immediately and the polling loop is never
attempted (the trace holds no read at all), but the mode-register write
is still attempted: the whole trace is exactly the configuration write
followed by the mode write. -/
theorem claimC1_auto_zero_amended (dev : Device) (fuel : Nat)
    (max_force_n exit_to_mode : Int)
    (hfail : dev.writeRegistersAck ZERO_MODE
      [AUTO_ZERO_MODE_ENABLED, max_force_n, exit_to_mode] = false) :
    auto_zero_wait dev fuel max_force_n exit_to_mode =
      (some false,
       [DeviceEvent.writeRegisters ZERO_MODE [AUTO_ZERO_MODE_ENABLED, max_force_n, exit_to_mode],
        DeviceEvent.writeRegister CTRL_REG_3 MODE_AUTO_ZERO]) := by
  simp [auto_zero_wait, command_auto_zero, write_registers, write_register, hfail]

/-- Witness for the amended claim C1 on the failing transport. -/
theorem claimC1_auto_zero_amended_witness :
    auto_zero_wait autoZeroFailDevice 5 50 1 =
      (some false,
       [DeviceEvent.writeRegisters ZERO_MODE [AUTO_ZERO_MODE_ENABLED, 50, 1],
        DeviceEvent.writeRegister CTRL_REG_3 MODE_AUTO_ZERO]) :=
  claimC1_auto_zero_amended autoZeroFailDevice 5 50 1 rfl

/-! ### Claim C5 theorems -/

/-- Kinematic status result reporting active motion id 3. -/
def kinStatusThree : MotorReadStreamResult :=
  { register_value := 3, mode := 5, position_um := 0, force_mN := 0,
    power_W := 0, temperature_C := 0, voltage_mV := 0, errors := 0 }

/-- Kinematic status result reporting active motion id 0. -/
def kinStatusZero : MotorReadStreamResult :=
  { register_value := 0, mode := 5, position_um := 0, force_mN := 0,
    power_W := 0, temperature_C := 0, voltage_mV := 0, errors := 0 }

/-- A transport acknowledging everything and reporting active motion 3. -/
def twoPointStatusDevice : Device where
  readRegisterAt := fun _ _ _ => some [(MODE_KINEMATIC)]
  writeRegisterAck := fun _ _ => true
  writeRegistersAck := fun _ _ => true
  motorReadStreamAt := fun _ _ _ => some kinStatusThree

/-- Claim C5: for every kinematic status value read, with the active
motion id its low 15 bits, the pair written is 2 and 3 when the active
id is 0 or 1 and otherwise 0 and 1; the slot triggered is the inbound
slot of the written pair when the active id is 1 or 3 and otherwise its
outbound slot; in particular active id 0 triggers slot 2 and active id
3 triggers slot 1.  The final conjunct ties the selection to the actual
run: the loop writes exactly those two slots and that trigger. -/
theorem claimC5_two_point_selection (dev : Device) (fuel : Nat)
    (stroke_rate_mm_s stroke_length_mm stroke_start_offset_mm : ℚ)
    (res : MotorReadStreamResult)
    (hread : dev.motorReadStreamAt 0 KINEMATIC_STATUS 1 = some res)
    (hfuel : 0 < fuel) :
    ((active_motion_id res = 0 ∨ active_motion_id res = 1) →
      (twoPointMotionIds (active_motion_id res)).1 = 2 ∧
        (twoPointMotionIds (active_motion_id res)).2.1 = 3) ∧
      (¬(active_motion_id res = 0 ∨ active_motion_id res = 1) →
        (twoPointMotionIds (active_motion_id res)).1 = 0 ∧
          (twoPointMotionIds (active_motion_id res)).2.1 = 1) ∧
      ((active_motion_id res = 1 ∨ active_motion_id res = 3) →
        (twoPointMotionIds (active_motion_id res)).2.2 =
          (twoPointMotionIds (active_motion_id res)).2.1) ∧
      (¬(active_motion_id res = 1 ∨ active_motion_id res = 3) →
        (twoPointMotionIds (active_motion_id res)).2.2 =
          (twoPointMotionIds (active_motion_id res)).1) ∧
      (active_motion_id res = 0 → (twoPointMotionIds (active_motion_id res)).2.2 = 2) ∧
      (active_motion_id res = 3 → (twoPointMotionIds (active_motion_id res)).2.2 = 1) ∧
      (configure_two_point_kinematic_motion dev fuel
          stroke_rate_mm_s stroke_length_mm stroke_start_offset_mm).2 =
        [DeviceEvent.motorReadStream KINEMATIC_STATUS 1,
         DeviceEvent.writeRegisters
           (KIN_MOTION_0 + 6 * (twoPointMotionIds (active_motion_id res)).1)
           (kinematicSlotValues
             (strokePositionEndUm stroke_length_mm stroke_start_offset_mm)
             (strokeSettlingTimeMs stroke_rate_mm_s stroke_length_mm) 0
             (twoPointMotionIds (active_motion_id res)).2.1 1 1),
         DeviceEvent.writeRegisters
           (KIN_MOTION_0 + 6 * (twoPointMotionIds (active_motion_id res)).2.1)
           (kinematicSlotValues
             (strokePositionStartUm stroke_start_offset_mm)
             (strokeSettlingTimeMs stroke_rate_mm_s stroke_length_mm) 0
             (twoPointMotionIds (active_motion_id res)).1 1 1),
         DeviceEvent.writeRegister KIN_SW_TRIGGER
           (twoPointMotionIds (active_motion_id res)).2.2] := by
  obtain ⟨n, rfl⟩ : ∃ n, fuel = n + 1 := ⟨fuel - 1, by omega⟩
  refine ⟨?_, ?_, ?_, ?_, ?_, ?_, ?_⟩
  · intro h
    rcases h with h | h <;> simp [twoPointMotionIds, h]
  · intro h
    simp [twoPointMotionIds, h]
  · intro h
    rcases h with h | h <;> simp [twoPointMotionIds, h]
  · intro h
    simp [twoPointMotionIds, h]
  · intro h
    simp [twoPointMotionIds, h]
  · intro h
    simp [twoPointMotionIds, h]
  · simp only [configure_two_point_kinematic_motion]
    rw [configureLoop_first_read_trace dev _ _ _ n res hread]

/-- Witness for claim C5 on a transport reporting active motion id 3. -/
theorem claimC5_two_point_selection_witness :
    ((active_motion_id kinStatusThree = 0 ∨ active_motion_id kinStatusThree = 1) →
      (twoPointMotionIds (active_motion_id kinStatusThree)).1 = 2 ∧
        (twoPointMotionIds (active_motion_id kinStatusThree)).2.1 = 3) ∧
      (¬(active_motion_id kinStatusThree = 0 ∨ active_motion_id kinStatusThree = 1) →
        (twoPointMotionIds (active_motion_id kinStatusThree)).1 = 0 ∧
          (twoPointMotionIds (active_motion_id kinStatusThree)).2.1 = 1) ∧
      ((active_motion_id kinStatusThree = 1 ∨ active_motion_id kinStatusThree = 3) →
        (twoPointMotionIds (active_motion_id kinStatusThree)).2.2 =
          (twoPointMotionIds (active_motion_id kinStatusThree)).2.1) ∧
      (¬(active_motion_id kinStatusThree = 1 ∨ active_motion_id kinStatusThree = 3) →
        (twoPointMotionIds (active_motion_id kinStatusThree)).2.2 =
          (twoPointMotionIds (active_motion_id kinStatusThree)).1) ∧
      (active_motion_id kinStatusThree = 0 →
        (twoPointMotionIds (active_motion_id kinStatusThree)).2.2 = 2) ∧
      (active_motion_id kinStatusThree = 3 →
        (twoPointMotionIds (active_motion_id kinStatusThree)).2.2 = 1) ∧
      (configure_two_point_kinematic_motion twoPointStatusDevice 1 20 50 0).2 =
        [DeviceEvent.motorReadStream KINEMATIC_STATUS 1,
         DeviceEvent.writeRegisters
           (KIN_MOTION_0 + 6 * (twoPointMotionIds (active_motion_id kinStatusThree)).1)
           (kinematicSlotValues (strokePositionEndUm 50 0) (strokeSettlingTimeMs 20 50) 0
             (twoPointMotionIds (active_motion_id kinStatusThree)).2.1 1 1),
         DeviceEvent.writeRegisters
           (KIN_MOTION_0 + 6 * (twoPointMotionIds (active_motion_id kinStatusThree)).2.1)
           (kinematicSlotValues (strokePositionStartUm 0) (strokeSettlingTimeMs 20 50) 0
             (twoPointMotionIds (active_motion_id kinStatusThree)).1 1 1),
         DeviceEvent.writeRegister KIN_SW_TRIGGER
           (twoPointMotionIds (active_motion_id kinStatusThree)).2.2] :=
  claimC5_two_point_selection twoPointStatusDevice 1 20 50 0 kinStatusThree rfl (by decide)

/-! ### Claim C6 theorems -/

/-- A transport acknowledging every write and reporting active motion 0. -/
def allAckDevice : Device where
  readRegisterAt := fun _ _ _ => some [(MODE_KINEMATIC)]
  writeRegisterAck := fun _ _ => true
  writeRegistersAck := fun _ _ => true
  motorReadStreamAt := fun _ _ _ => some kinStatusZero

/-- A transport identical to allAckDevice except that it refuses the
kinematic trigger write. -/
def trigNackDevice : Device where
  readRegisterAt := fun _ _ _ => some [(MODE_KINEMATIC)]
  writeRegisterAck := fun address _ => !(address == KIN_SW_TRIGGER)
  writeRegistersAck := fun _ _ => true
  motorReadStreamAt := fun _ _ _ => some kinStatusZero

/-- Claim C6 failing input, evaluated: configure_two_point_kinematic_motion
returns the Python value None (the unit of a finished run) both on a
transport acknowledging every write and on one refusing the trigger
write that the run demonstrably issues, so its return value reports
success on neither; the bool results of the slot writes and of the
trigger write are computed and then dropped. -/
theorem claimC6_configure_returns_no_status :
    (configure_two_point_kinematic_motion allAckDevice 1 20 50 0).1 = some () ∧
      (configure_two_point_kinematic_motion trigNackDevice 1 20 50 0).1 = some () ∧
      allAckDevice.writeRegisterAck KIN_SW_TRIGGER 2 = true ∧
      trigNackDevice.writeRegisterAck KIN_SW_TRIGGER 2 = false ∧
      DeviceEvent.writeRegister KIN_SW_TRIGGER 2 ∈
        (configure_two_point_kinematic_motion trigNackDevice 1 20 50 0).2 := by
  decide

/-! ### Claim C7 theorems -/

/-- A transport whose mode register reads Kinematic, whose kinematic
status register reads 0 (no motion in progress), which acknowledges
every write and reports active motion 0 on the stream read. -/
def sleepPathDevice : Device where
  readRegisterAt := fun _ address _ =>
    if address = MODE_OF_OPERATION then some [(MODE_KINEMATIC)] else some [0]
  writeRegisterAck := fun _ _ => true
  writeRegistersAck := fun _ _ => true
  motorReadStreamAt := fun _ _ _ => some kinStatusZero

/-- Counterexample to claim C7: with both stroke parameters 0 the
handler does force the mode to Sleep, yet a write to the kinematic
software trigger register is still issued during the operation, inside
configure_two_point_kinematic_motion. -/
theorem claimC7_counterexample :
    DeviceEvent.writeRegister CTRL_REG_3 MODE_SLEEP ∈
        (handle_state_change sleepPathDevice 1 0 0).2 ∧
      DeviceEvent.writeRegister KIN_SW_TRIGGER 2 ∈
        (handle_state_change sleepPathDevice 1 0 0).2 := by
  decide

/-- Claim C7 as amended: with both stroke parameters 0 and a truthy mode
read other than Sleep, the handler forces the mode to Sleep and
suppresses its own trailing trigger write of motion 0, but the stroke
parameters are clamped to the 20 mm minima and the reconfiguration still
issues one write to the kinematic trigger register: the trace ends with
the trigger write of the freshly written pair and holds no further
trigger write after it. -/
theorem claimC7_zero_stroke_amended (dev : Device) (fuel : Nat) (m k : Int)
    (mrest krest : List Int) (res : MotorReadStreamResult)
    (hmode : dev.readRegisterAt 0 MODE_OF_OPERATION 1 = some (m :: mrest))
    (hm0 : m ≠ 0) (hm1 : m ≠ MODE_SLEEP)
    (hkin : dev.readRegisterAt 1 KINEMATIC_STATUS 1 = some (k :: krest))
    (hread : dev.motorReadStreamAt 0 KINEMATIC_STATUS 1 = some res)
    (hfuel : 0 < fuel) :
    handle_state_change dev fuel 0 0 =
      (some (MIN_STROKE_RATE_MM_S, MIN_STROKE_LENGTH_MM),
       [DeviceEvent.readRegister MODE_OF_OPERATION 1,
        DeviceEvent.readRegister KINEMATIC_STATUS 1,
        DeviceEvent.writeRegister CTRL_REG_3 MODE_SLEEP,
        DeviceEvent.motorReadStream KINEMATIC_STATUS 1,
        DeviceEvent.writeRegisters
          (KIN_MOTION_0 + 6 * (twoPointMotionIds (active_motion_id res)).1)
          (kinematicSlotValues (strokePositionEndUm 20 35) (strokeSettlingTimeMs 20 20) 0
            (twoPointMotionIds (active_motion_id res)).2.1 1 1),
        DeviceEvent.writeRegisters
          (KIN_MOTION_0 + 6 * (twoPointMotionIds (active_motion_id res)).2.1)
          (kinematicSlotValues (strokePositionStartUm 35) (strokeSettlingTimeMs 20 20) 0
            (twoPointMotionIds (active_motion_id res)).1 1 1),
        DeviceEvent.writeRegister KIN_SW_TRIGGER
          (twoPointMotionIds (active_motion_id res)).2.2]) := by
  obtain ⟨n, rfl⟩ : ∃ n, fuel = n + 1 := ⟨fuel - 1, by omega⟩
  have hb0 : (m != 0) = true := by simp [hm0]
  have hb1 : (m != MODE_SLEEP) = true := by simp [hm1]
  have hrate : max (0 : Int) MIN_STROKE_RATE_MM_S = MIN_STROKE_RATE_MM_S := by decide
  have hlen : max (0 : Int) MIN_STROKE_LENGTH_MM = MIN_STROKE_LENGTH_MM := by decide
  have hcrate : ((MIN_STROKE_RATE_MM_S : Int) : ℚ) = 20 := by
    norm_num [MIN_STROKE_RATE_MM_S]
  have hclen : ((MIN_STROKE_LENGTH_MM : Int) : ℚ) = 20 := by
    norm_num [MIN_STROKE_LENGTH_MM]
  simp only [handle_state_change, get_mode, read_register, hmode, hkin, hb0, hb1,
    hrate, hlen, hcrate, hclen, configure_two_point_kinematic_motion]
  rw [configureLoop_first_read_trace dev _ _ _ n res hread]
  simp [set_mode, write_register, hm1]

/-- Witness for the amended claim C7 on the Sleep-path transport. -/
theorem claimC7_zero_stroke_amended_witness :
    handle_state_change sleepPathDevice 1 0 0 =
      (some (MIN_STROKE_RATE_MM_S, MIN_STROKE_LENGTH_MM),
       [DeviceEvent.readRegister MODE_OF_OPERATION 1,
        DeviceEvent.readRegister KINEMATIC_STATUS 1,
        DeviceEvent.writeRegister CTRL_REG_3 MODE_SLEEP,
        DeviceEvent.motorReadStream KINEMATIC_STATUS 1,
        DeviceEvent.writeRegisters
          (KIN_MOTION_0 + 6 * (twoPointMotionIds (active_motion_id kinStatusZero)).1)
          (kinematicSlotValues (strokePositionEndUm 20 35) (strokeSettlingTimeMs 20 20) 0
            (twoPointMotionIds (active_motion_id kinStatusZero)).2.1 1 1),
        DeviceEvent.writeRegisters
          (KIN_MOTION_0 + 6 * (twoPointMotionIds (active_motion_id kinStatusZero)).2.1)
          (kinematicSlotValues (strokePositionStartUm 35) (strokeSettlingTimeMs 20 20) 0
            (twoPointMotionIds (active_motion_id kinStatusZero)).1 1 1),
        DeviceEvent.writeRegister KIN_SW_TRIGGER
          (twoPointMotionIds (active_motion_id kinStatusZero)).2.2]) :=
  claimC7_zero_stroke_amended sleepPathDevice 1 MODE_KINEMATIC 0 [] [] kinStatusZero
    rfl (by decide) (by decide) rfl rfl (by decide)

/-! ### Claim C10 theorems -/

/-- A motor write response after a successful exchange: not flagged as
an error, all seven decoded attributes populated. -/
def decodedWriteResponse : MotorWriteStreamResponse :=
  { isError := false, mode := some 1, position := some 0, force := some 0,
    power := some 0, temperature := some 0, voltage := some 0, errors := some 0 }

/-- Counterexample to claim C10: on a successful exchange
motor_write_stream does not return None (the claim says it returns None
on every call) — its final bare response.result raises AttributeError,
because the response object carries no result attribute. -/
theorem claimC10_counterexample :
    motor_write_stream decodedWriteResponse = Except.error PyError.attributeError ∧
      motor_write_stream decodedWriteResponse ≠ Except.ok none := by
  refine ⟨rfl, ?_⟩
  intro h
  simp [motor_write_stream, decodedWriteResponse] at h

/-- Claim C10 as amended: motor_command_stream returns None on every
call, even when the exchange succeeds and a decoded result is available,
so its caller cannot distinguish success from failure by its return
value; motor_write_stream returns None exactly on the error path, while
on a successful exchange its bare response.result raises AttributeError
(the response class defines no result attribute and the annotated
MotorWriteStreamResult dataclass exists nowhere), so this method never
returns a decoded result either; motor_read_stream and
manage_high_speed_stream return the decoded result attribute whenever
the response is not flagged as an error. -/
theorem claimC10_stream_return_amended :
    (∀ response : PyResponse MotorCommandStreamResult,
        motor_command_stream response = none) ∧
      (∀ response : MotorWriteStreamResponse, response.isError = true →
        motor_write_stream response = Except.ok none) ∧
      (∀ response : MotorWriteStreamResponse, response.isError = false →
        motor_write_stream response = Except.error PyError.attributeError) ∧
      (∀ response : PyResponse MotorReadStreamResult,
        response.isError = false → motor_read_stream response = response.result) ∧
      (∀ response : PyResponse ManageHighSpeedStreamResult,
        response.isError = false → manage_high_speed_stream response = response.result) := by
  refine ⟨fun r => ?_, fun r h => ?_, fun r h => ?_, fun r h => ?_, fun r h => ?_⟩ <;>
    simp [motor_command_stream, motor_write_stream, motor_read_stream,
      manage_high_speed_stream, *]

/-- Sample decoded motor command result. -/
def sampleCommandResult : MotorCommandStreamResult :=
  { position_um := 0, force_mN := 0, power_W := 0, temperature_C := 0,
    voltage_mV := 0, errors := 0 }

/-- An error-flagged motor write response with nothing decoded. -/
def errorWriteResponse : MotorWriteStreamResponse :=
  { isError := true, mode := none, position := none, force := none,
    power := none, temperature := none, voltage := none, errors := none }

/-- Sample decoded high-speed stream result. -/
def sampleManageResult : ManageHighSpeedStreamResult :=
  { state_command := 0, realized_baud_rate := 19200, realized_delay_us := 0 }

/-- Witness for the amended claim C10 on concrete responses: an
error-free command response, an error-flagged and an error-free write
response, and error-free read and high-speed responses carrying decoded
results. -/
theorem claimC10_stream_return_amended_witness :
    motor_command_stream { isError := false, result := some sampleCommandResult } = none ∧
      motor_write_stream errorWriteResponse = Except.ok none ∧
      motor_write_stream decodedWriteResponse = Except.error PyError.attributeError ∧
      motor_read_stream { isError := false, result := some kinStatusZero } =
        some kinStatusZero ∧
      manage_high_speed_stream { isError := false, result := some sampleManageResult } =
        some sampleManageResult :=
  ⟨claimC10_stream_return_amended.1 { isError := false, result := some sampleCommandResult },
   claimC10_stream_return_amended.2.1 errorWriteResponse rfl,
   claimC10_stream_return_amended.2.2.1 decodedWriteResponse rfl,
   claimC10_stream_return_amended.2.2.2.1 { isError := false, result := some kinStatusZero } rfl,
   claimC10_stream_return_amended.2.2.2.2
     { isError := false, result := some sampleManageResult } rfl⟩
